import Mathlib

/-!
Verification of the whatsapp-sdk transport, webhook, and validation logic.

This file gives a shallow embedding of the Python source:

* `src/whatsapp_sdk/http_client.py` — `HTTPClient.request`, the retry loop with
  status classification (429 / 401 / 403 / other errors / 2xx) and backoff;
* `src/whatsapp_sdk/exceptions.py` — the error taxonomy and
  `APIError.from_response`;
* `src/whatsapp_sdk/client.py` — `validate_webhook_signature` (HMAC-SHA256),
  `verify_webhook_token`, `_validate_phone_number`;
* `src/whatsapp_sdk/models/webhooks.py` — the webhook payload model and
  `WebhookEvent.from_payload` flattening.

Python dynamic values returned by `response.json()` are modelled by a small
JSON value type; Python exceptions raised by external library calls (the JSON
decoder, `httpx` transport failures, `raise_for_status`) are modelled as data
carried by the simulated response, holding the `str()` rendering of the
exception, which the source interpolates into error messages.
-/

namespace WhatsAppSDK

/-- JSON values, the model of Python objects returned by `response.json()`.
Numbers are modelled as integers (no claim touches float bodies). -/
inductive Json where
  | null
  | bool (b : Bool)
  | num (n : Int)
  | str (s : String)
  | arr (elems : List Json)
  | obj (fields : List (String × Json))

/-- First-match lookup in a JSON object's field list (Python dicts have unique
keys, so first-match agrees with dict lookup). -/
def Json.lookupField : List (String × Json) → String → Option Json
  | [], _ => none
  | (k, v) :: rest, key => if k = key then some v else Json.lookupField rest key

/-- Model of Python `d.get(key, default)` on a parsed JSON value: when the
receiver is not a dict, Python raises `AttributeError`; the error string stands
for the `str()` of that exception. -/
def Json.pyGet : Json → String → Json → Except String Json
  | .obj kvs, key, d => .ok ((Json.lookupField kvs key).getD d)
  | _, _, _ => .error "AttributeError"

/-- Model of Python `str()` on JSON values. Every claim only exercises string
values, where `str` is the identity; the remaining cases are honest
approximations of Python's rendering and are unused by the theorems below. -/
def pyStr : Json → String
  | .str s => s
  | .num n => toString n
  | .bool true => "True"
  | .bool false => "False"
  | .null => "None"
  | .obj _ => "<dict>"
  | .arr _ => "<list>"

/-- The exception taxonomy of `src/whatsapp_sdk/exceptions.py`. Each variant
carries the fields its constructor sets; fields that a given `raise` site
leaves at their defaults (`code=None`, `details={}`) are represented at the
construction sites. `APIError` and `AuthenticationError` carry `Json` fields
because the Python code passes through untyped values from parsed bodies. -/
inductive WhatsAppError where
  | APIError (message : Json) (code : Json) (status_code : Json) (details : Json)
  | AuthenticationError (message : Json) (code : String)
  | ValidationError (message : String)
  | RateLimitError (message : String) (retry_after : Option Int)
  | MediaError (message : String)
  | TemplateError (message : String)
  | WebhookError (message : String)
  | NetworkError (message : String)

/-- `APIError.from_response` (exceptions.py lines 39-48): build an `APIError`
from the vendor error envelope `{error: {message, code, error_subcode,
error_data}}`. The `Except String` layer models the `AttributeError` Python
raises when `.get` is called on a non-dict. -/
def APIError.from_response (response : Json) : Except String WhatsAppError := do
  let error ← response.pyGet "error" (Json.obj [])
  let message ← error.pyGet "message" (Json.str "Unknown API error")
  let code ← error.pyGet "code" Json.null
  let status_code ← error.pyGet "error_subcode" Json.null
  let details ← error.pyGet "error_data" (Json.obj [])
  return WhatsAppError.APIError message code status_code details

/-- Python `str(e)` on a `WhatsAppError`: `WhatsAppError.__init__` calls
`super().__init__(message)`, so `args = (message,)` and `str(e)` is
`str(message)`. -/
def WhatsAppError.pyStrOf : WhatsAppError → String
  | .APIError message _ _ _ => pyStr message
  | .AuthenticationError message _ => pyStr message
  | .ValidationError message => message
  | .RateLimitError message _ => message
  | .MediaError message => message
  | .TemplateError message => message
  | .WebhookError message => message
  | .NetworkError message => message

/-- The generic `except Exception` handler of `HTTPClient.request`
(http_client.py lines 138-140): `raise NetworkError(f"Unexpected error: {e}")`. -/
def wrapUnexpected (e : WhatsAppError) : WhatsAppError :=
  .NetworkError ("Unexpected error: " ++ e.pyStrOf)

/-- One simulated HTTP response, as `HTTPClient.request` observes it:
* `status_code` — the integer status;
* `retry_after` — the `Retry-After` header already parsed as an integer
  (`int(response.headers.get("Retry-After", 60))`), `none` when absent;
* `body` — the result of `response.json()`: a parsed value, or the `str()` of
  the decode exception when the body is not valid JSON;
* `status_error_str` — the `str()` of the `httpx.HTTPStatusError` that
  `response.raise_for_status()` raises for this response (a rendering of
  status, reason phrase and URL, produced by the external httpx library). -/
structure Response where
  status_code : Nat
  retry_after : Option Int
  body : Except String Json
  status_error_str : String

/-- What one attempt of the transport yields: either a response object, or an
`httpx.RequestError` (connection refused, timeout, ...) whose `str()` is
`msg`. -/
inductive AttemptOutcome where
  | response (r : Response)
  | requestError (msg : String)

/-- Observable result of one call to `HTTPClient.request`: the returned body or
raised error, the number of HTTP attempts issued, and the durations (seconds)
of the backoff sleeps performed, in order. -/
structure RequestResult where
  outcome : Except WhatsAppError Json
  attempts : Nat
  sleeps : List Nat

namespace HTTPClient

/-- The body of the retry loop of `HTTPClient.request` (http_client.py lines
73-148), with `transport attempt` supplying the outcome of HTTP attempt
number `attempt`. `remaining` counts loop iterations left
(`attempt + remaining = max_retries`); `last_exception` and `sleeps` thread the
loop state. Control flow is translated branch for branch:

* status 429 (lines 85-88): `RateLimitError` is raised inside the `try`, caught
  by `except RateLimitError` (lines 134-136) and re-raised unchanged.
* status 401/403 (lines 90-98): `response.json()` runs first (a decode failure
  falls to the generic `except Exception`, lines 138-140); then
  `AuthenticationError` is raised inside the `try` — it matches none of the
  `httpx` clauses nor `except RateLimitError`, so it too is caught by
  `except Exception` and wrapped into `NetworkError("Unexpected error: ...")`.
* any other non-2xx status: `raise_for_status()` (line 101) raises
  `httpx.HTTPStatusError` (httpx raises on every non-success status). In the
  handler (lines 106-124), `status >= 400` takes the first branch, whose inner
  `try` (lines 109-116) always ends in the generic
  `APIError(message=str(e), status_code=...)`: both
  `raise APIError.from_response(error_data)` and a `json()` failure are caught
  by the inner `except Exception` on line 112. The `status >= 500` retry
  branch (lines 118-124) is therefore unreachable; it is kept below to mirror
  the source. A 1xx/3xx status falls through the handler and the loop
  continues.
* a 2xx status returns `response.json()` (line 104); a decode failure is
  wrapped by the generic handler.
* `httpx.RequestError` (lines 126-132): record the exception, sleep
  `2**attempt` and retry if attempts remain, else raise `NetworkError`. -/
def requestLoop (transport : Nat → AttemptOutcome) (max_retries : Nat) :
    Nat → Nat → Option String → List Nat → RequestResult
  | attempt, 0, last_exception, sleeps =>
    -- lines 142-148: the loop exhausted its range without returning or raising
    match last_exception with
    | some msg =>
      ⟨.error (.NetworkError
          ("Request failed after " ++ toString max_retries ++ " retries: " ++ msg)),
        attempt, sleeps⟩
    | none =>
      ⟨.error (.NetworkError "Request failed for unknown reason"), attempt, sleeps⟩
  | attempt, remaining + 1, last_exception, sleeps =>
    match transport attempt with
    | .requestError msg =>
      -- lines 126-132
      if attempt < max_retries - 1 then
        requestLoop transport max_retries (attempt + 1) remaining (some msg)
          (sleeps ++ [2 ^ attempt])
      else
        ⟨.error (.NetworkError
            ("Network error after " ++ toString max_retries ++ " retries: " ++ msg)),
          attempt + 1, sleeps⟩
    | .response r =>
      if r.status_code = 429 then
        -- lines 85-88, re-raised at lines 134-136
        ⟨.error (.RateLimitError "Rate limit exceeded" (some (r.retry_after.getD 60))),
          attempt + 1, sleeps⟩
      else if r.status_code = 401 ∨ r.status_code = 403 then
        -- lines 90-98; the raised AuthenticationError is wrapped at lines 138-140
        match r.body with
        | .error msg => ⟨.error (.NetworkError ("Unexpected error: " ++ msg)), attempt + 1, sleeps⟩
        | .ok error_data =>
          match error_data.pyGet "error" (Json.obj []) with
          | .error msg =>
            ⟨.error (.NetworkError ("Unexpected error: " ++ msg)), attempt + 1, sleeps⟩
          | .ok errorVal =>
            match errorVal.pyGet "message" (Json.str "Authentication failed") with
            | .error msg =>
              ⟨.error (.NetworkError ("Unexpected error: " ++ msg)), attempt + 1, sleeps⟩
            | .ok messageVal =>
              ⟨.error (wrapUnexpected
                  (.AuthenticationError messageVal (toString r.status_code))),
                attempt + 1, sleeps⟩
      else if r.status_code < 200 ∨ 300 ≤ r.status_code then
        -- line 101 raises httpx.HTTPStatusError; handler at lines 106-124
        if 400 ≤ r.status_code then
          -- lines 108-116: the inner try always ends in the generic APIError;
          -- the envelope-based APIError.from_response value is swallowed by
          -- the inner `except Exception`
          ⟨.error (.APIError (.str r.status_error_str) .null (.num r.status_code) (.obj [])),
            attempt + 1, sleeps⟩
        else if 500 ≤ r.status_code then
          -- lines 118-124: unreachable (500 ≤ s implies 400 ≤ s); kept to
          -- mirror the source's dead retry branch
          if attempt < max_retries - 1 then
            requestLoop transport max_retries (attempt + 1) remaining
              (some r.status_error_str) (sleeps ++ [2 ^ attempt])
          else
            ⟨.error (.NetworkError
                ("Server error after " ++ toString max_retries ++ " retries: "
                  ++ r.status_error_str)),
              attempt + 1, sleeps⟩
        else
          -- 1xx/3xx: the handler falls through and the for-loop continues
          requestLoop transport max_retries (attempt + 1) remaining last_exception sleeps
      else
        -- 2xx: line 104 returns response.json()
        match r.body with
        | .ok data => ⟨.ok data, attempt + 1, sleeps⟩
        | .error msg => ⟨.error (.NetworkError ("Unexpected error: " ++ msg)), attempt + 1, sleeps⟩

/-- `HTTPClient.request` (http_client.py lines 54-148): run the retry loop from
attempt 0 with no recorded exception. Rate limiting (line 65) only delays and
is not modelled. -/
def request (max_retries : Nat) (transport : Nat → AttemptOutcome) : RequestResult :=
  requestLoop transport max_retries 0 max_retries none []

end HTTPClient

/-!
SHA-256 and HMAC-SHA256 over byte lists, translated from FIPS 180-4 and
RFC 2104 — the algorithms Python's `hashlib.sha256` and `hmac.new` implement;
`WhatsAppClient.validate_webhook_signature` calls them. Words are `Nat` reduced
mod `2^32`; bytes are `Nat` below 256.
-/

/-- `2^32`, the word modulus. -/
def M32 : Nat := 4294967296

/-- Right rotation of a 32-bit word. -/
def rotr32 (n x : Nat) : Nat := ((x >>> n) ||| (x <<< (32 - n))) % M32

/-- `Ch(x,y,z)`; `¬x` is xor with `2^32 - 1`. -/
def sha2Ch (x y z : Nat) : Nat := (x &&& y) ^^^ ((x ^^^ 4294967295) &&& z)

/-- `Maj(x,y,z)`. -/
def sha2Maj (x y z : Nat) : Nat := (x &&& y) ^^^ (x &&& z) ^^^ (y &&& z)

/-- `Σ₀`. -/
def bsig0 (x : Nat) : Nat := rotr32 2 x ^^^ rotr32 13 x ^^^ rotr32 22 x

/-- `Σ₁`. -/
def bsig1 (x : Nat) : Nat := rotr32 6 x ^^^ rotr32 11 x ^^^ rotr32 25 x

/-- `σ₀`. -/
def ssig0 (x : Nat) : Nat := rotr32 7 x ^^^ rotr32 18 x ^^^ (x >>> 3)

/-- `σ₁`. -/
def ssig1 (x : Nat) : Nat := rotr32 17 x ^^^ rotr32 19 x ^^^ (x >>> 10)

/-- The 64 SHA-256 round constants (FIPS 180-4 §4.2.2), in decimal. -/
def K256 : List Nat :=
  [1116352408, 1899447441, 3049323471, 3921009573, 961987163, 1508970993,
   2453635748, 2870763221, 3624381080, 310598401, 607225278, 1426881987,
   1925078388, 2162078206, 2614888103, 3248222580, 3835390401, 4022224774,
   264347078, 604807628, 770255983, 1249150122, 1555081692, 1996064986,
   2554220882, 2821834349, 2952996808, 3210313671, 3336571891, 3584528711,
   113926993, 338241895, 666307205, 773529912, 1294757372, 1396182291,
   1695183700, 1986661051, 2177026350, 2456956037, 2730485921, 2820302411,
   3259730800, 3345764771, 3516065817, 3600352804, 4094571909, 275423344,
   430227734, 506948616, 659060556, 883997877, 958139571, 1322822218,
   1537002063, 1747873779, 1955562222, 2024104815, 2227730452, 2361852424,
   2428436474, 2756734187, 3204031479, 3329325298]

/-- The eight SHA-256 initial hash values (FIPS 180-4 §5.3.3), in decimal. -/
def H256 : List Nat :=
  [1779033703, 3144134277, 1013904242, 2773480762,
   1359893119, 2600822924, 528734635, 1541459225]

/-- Big-endian 8-byte encoding of a length in bits. -/
def u64be (n : Nat) : List Nat :=
  [(n >>> 56) % 256, (n >>> 48) % 256, (n >>> 40) % 256, (n >>> 32) % 256,
   (n >>> 24) % 256, (n >>> 16) % 256, (n >>> 8) % 256, n % 256]

/-- SHA-256 padding: append `0x80`, zeros, then the 64-bit big-endian bit
length, reaching a multiple of 64 bytes. `(119 - L % 64) % 64` equals
`(55 - L) mod 64` without truncated-subtraction pitfalls. -/
def sha256Pad (msg : List Nat) : List Nat :=
  msg ++ 0x80 :: List.replicate ((119 - msg.length % 64) % 64) 0 ++ u64be (8 * msg.length)

/-- Pack bytes into big-endian 32-bit words (input length a multiple of 4). -/
def bytesToWords : List Nat → List Nat
  | b0 :: b1 :: b2 :: b3 :: rest => (((b0 * 256 + b1) * 256 + b2) * 256 + b3) :: bytesToWords rest
  | _ => []

/-- Unpack a word into 4 big-endian bytes. -/
def wordBytes (w : Nat) : List Nat := [(w >>> 24) % 256, (w >>> 16) % 256, (w >>> 8) % 256, w % 256]

/-- Split a word list into 16-word blocks (input length a multiple of 16). -/
def chunks16 : List Nat → List (List Nat)
  | w0 :: w1 :: w2 :: w3 :: w4 :: w5 :: w6 :: w7 ::
    w8 :: w9 :: w10 :: w11 :: w12 :: w13 :: w14 :: w15 :: rest =>
    [w0, w1, w2, w3, w4, w5, w6, w7, w8, w9, w10, w11, w12, w13, w14, w15] :: chunks16 rest
  | _ => []

/-- Message-schedule extension, on the reversed schedule (head = most recent
word): `W[t] = σ₁(W[t-2]) + W[t-7] + σ₀(W[t-15]) + W[t-16] mod 2^32`. -/
def extendW : Nat → List Nat → List Nat
  | 0, rev => rev
  | fuel + 1, rev =>
    extendW fuel
      (((ssig1 (rev.getD 1 0) + rev.getD 6 0 + ssig0 (rev.getD 14 0) + rev.getD 15 0) % M32) :: rev)

/-- The 64-word message schedule of a 16-word block. -/
def messageSchedule (block : List Nat) : List Nat := (extendW 48 block.reverse).reverse

/-- The SHA-256 compression rounds over paired `(Kᵢ, Wᵢ)`. -/
def compressRounds :
    List (Nat × Nat) → Nat × Nat × Nat × Nat × Nat × Nat × Nat × Nat →
      Nat × Nat × Nat × Nat × Nat × Nat × Nat × Nat
  | [], st => st
  | (k, w) :: rest, (a, b, c, d, e, f, g, h) =>
    let t1 := (h + bsig1 e + sha2Ch e f g + k + w) % M32
    let t2 := (bsig0 a + sha2Maj a b c) % M32
    compressRounds rest ((t1 + t2) % M32, a, b, c, (d + t1) % M32, e, f, g)

/-- Process one 16-word block, updating the 8-word chaining state. -/
def sha256Block (H : List Nat) (block : List Nat) : List Nat :=
  let (a, b, c, d, e, f, g, h) :=
    compressRounds (K256.zip (messageSchedule block))
      (H.getD 0 0, H.getD 1 0, H.getD 2 0, H.getD 3 0,
       H.getD 4 0, H.getD 5 0, H.getD 6 0, H.getD 7 0)
  [(H.getD 0 0 + a) % M32, (H.getD 1 0 + b) % M32, (H.getD 2 0 + c) % M32, (H.getD 3 0 + d) % M32,
   (H.getD 4 0 + e) % M32, (H.getD 5 0 + f) % M32, (H.getD 6 0 + g) % M32, (H.getD 7 0 + h) % M32]

/-- SHA-256 of a byte list, as 32 bytes. -/
def sha256 (msg : List Nat) : List Nat :=
  ((chunks16 (bytesToWords (sha256Pad msg))).foldl sha256Block H256).flatMap wordBytes

/-- HMAC-SHA256 (RFC 2104, block size 64): what Python's
`hmac.new(key, msg, hashlib.sha256).digest()` computes. -/
def hmacSha256 (key msg : List Nat) : List Nat :=
  let k0 := if 64 < key.length then sha256 key else key
  let kp := k0 ++ List.replicate (64 - k0.length) 0
  sha256 ((kp.map (fun b => b ^^^ 0x5c)) ++ sha256 ((kp.map (fun b => b ^^^ 0x36)) ++ msg))

/-- One lowercase hex digit. -/
def hexDigit (n : Nat) : Char := if n < 10 then Char.ofNat (48 + n) else Char.ofNat (87 + n)

/-- Lowercase hex encoding of a byte list (Python's `.hexdigest()`). -/
def bytesToHex (bs : List Nat) : String :=
  String.mk (bs.flatMap (fun b => [hexDigit (b / 16), hexDigit (b % 16)]))

/-- The hex HMAC-SHA256 digest computed at client.py lines 136-140. -/
def hmacSha256Hex (key msg : List Nat) : String := bytesToHex (hmacSha256 key msg)

/-- UTF-8 encoding of one code point. -/
def utf8Bytes (c : Nat) : List Nat :=
  if c < 0x80 then [c]
  else if c < 0x800 then [0xC0 ||| (c >>> 6), 0x80 ||| (c &&& 0x3F)]
  else if c < 0x10000 then
    [0xE0 ||| (c >>> 12), 0x80 ||| ((c >>> 6) &&& 0x3F), 0x80 ||| (c &&& 0x3F)]
  else
    [0xF0 ||| (c >>> 18), 0x80 ||| ((c >>> 12) &&& 0x3F),
     0x80 ||| ((c >>> 6) &&& 0x3F), 0x80 ||| (c &&& 0x3F)]

/-- Python's `s.encode("utf-8")` as a byte list. -/
def strBytes (s : String) : List Nat := s.data.flatMap (fun ch => utf8Bytes ch.toNat)

namespace WhatsAppClient

/-- Lines 131-133 of client.py: strip an optional `sha256=` prefix.
`signature.startswith("sha256=")` and the slice `signature[7:]` operate on
code points, modelled on the string's character list. -/
def stripSha256Prefix (signature : String) : String :=
  if List.isPrefixOf "sha256=".data signature.data then String.mk (signature.data.drop 7)
  else signature

/-- `WhatsAppClient.validate_webhook_signature` (client.py lines 110-143):
raises `WebhookError` when `app_secret` is empty (Python falsiness of a `str`),
strips an optional `sha256=` prefix, and compares the header to the hex
HMAC-SHA256 of the payload keyed by the secret. `hmac.compare_digest` is a
timing-safe string equality; timing is outside this model, so it is equality. -/
def validate_webhook_signature (app_secret signature : String) (payload : List Nat) :
    Except WhatsAppError Bool :=
  if app_secret = "" then
    .error (.WebhookError "app_secret is required for webhook signature validation")
  else
    .ok (hmacSha256Hex (strBytes app_secret) payload == stripSha256Prefix signature)

/-- `WhatsAppClient.verify_webhook_token` (client.py lines 145-159): `false`
(after a logged warning, not modelled) when no verify token is configured,
else exact string comparison. -/
def verify_webhook_token (webhook_verify_token token : String) : Bool :=
  if webhook_verify_token = "" then false
  else token == webhook_verify_token

/-- `WhatsAppClient._validate_phone_number` (client.py lines 297-317): keep the
digit characters of the input; accept when 7–15 digits remain, else raise
`ValidationError(f"Invalid phone number: {phone}")`. Python's `str.isdigit`
agrees with `Char.isDigit` on the ASCII inputs the claims exercise. -/
def validate_phone_number (phone : String) : Except WhatsAppError String :=
  let digits := phone.data.filter Char.isDigit
  if digits.length < 7 ∨ 15 < digits.length then
    .error (.ValidationError ("Invalid phone number: " ++ phone))
  else
    .ok (String.mk digits)

end WhatsAppClient

/-!
The webhook payload model of `src/whatsapp_sdk/models/webhooks.py`. Pydantic
`Optional[...]` fields default to `None`; they are `Option` fields defaulting
to `none`. `Dict[str, str]` is a string association list and `Dict[str, Any]`
is `Json`. Enum values come from `src/whatsapp_sdk/models/base.py`.
-/

/-- `MessageType` (base.py lines 11-24). -/
inductive MessageType where
  | text | image | audio | video | document | template | interactive
  | location | contacts | sticker | reaction

/-- `StatusType` (base.py lines 82-88). -/
inductive StatusType where
  | sent | delivered | read | failed

/-- `WebhookMetadata` (webhooks.py lines 12-16). -/
structure WebhookMetadata where
  display_phone_number : String
  phone_number_id : String

/-- `TextContent` (webhooks.py lines 19-22). -/
structure TextContent where
  body : String

/-- `MediaContent` (webhooks.py lines 25-32). -/
structure MediaContent where
  id : String
  mime_type : Option String := none
  sha256 : Option String := none
  caption : Option String := none
  filename : Option String := none

/-- `LocationContent` (webhooks.py lines 35-42). -/
structure LocationContent where
  latitude : Int
  longitude : Int
  name : Option String := none
  address : Option String := none
  url : Option String := none

/-- `ContactContent` (webhooks.py lines 45-53). -/
structure ContactContent where
  name : List (String × String)
  phones : Option (List (List (String × String))) := none
  emails : Option (List (List (String × String))) := none
  addresses : Option (List (List (String × String))) := none
  org : Option (List (String × String)) := none
  urls : Option (List (List (String × String))) := none

/-- `InteractiveContent` (webhooks.py lines 56-61). -/
structure InteractiveContent where
  type : String
  button_reply : Option (List (String × String)) := none
  list_reply : Option (List (String × String)) := none

/-- `ReactionContent` (webhooks.py lines 64-68). -/
structure ReactionContent where
  message_id : String
  emoji : String

/-- `Context` (webhooks.py lines 71-77); `from_` is the `from` alias. -/
structure Context where
  from_ : String
  id : String
  forwarded : Option Bool := none
  frequently_forwarded : Option Bool := none

/-- `IncomingMessage` (webhooks.py lines 80-101), content properties omitted. -/
structure IncomingMessage where
  id : String
  from_ : String
  timestamp : String
  type : MessageType
  context : Option Context := none
  text : Option TextContent := none
  image : Option MediaContent := none
  video : Option MediaContent := none
  audio : Option MediaContent := none
  voice : Option MediaContent := none
  document : Option MediaContent := none
  sticker : Option MediaContent := none
  location : Option LocationContent := none
  contacts : Option (List ContactContent) := none
  interactive : Option InteractiveContent := none
  reaction : Option ReactionContent := none
  errors : Option (List Json) := none

/-- `MessageStatus` (webhooks.py lines 126-135). -/
structure MessageStatus where
  id : String
  status : StatusType
  timestamp : String
  recipient_id : String
  conversation : Option Json := none
  pricing : Option Json := none
  errors : Option (List Json) := none

/-- `ContactInfo` (webhooks.py lines 138-142). -/
structure ContactInfo where
  profile : List (String × String)
  wa_id : String

/-- `WebhookValue` (webhooks.py lines 145-153). -/
structure WebhookValue where
  messaging_product : String
  metadata : WebhookMetadata
  contacts : Option (List ContactInfo) := none
  messages : Option (List IncomingMessage) := none
  statuses : Option (List MessageStatus) := none
  errors : Option (List Json) := none

/-- `WebhookChange` (webhooks.py lines 156-160). -/
structure WebhookChange where
  value : WebhookValue
  field : String

/-- `WebhookEntry` (webhooks.py lines 163-167). -/
structure WebhookEntry where
  id : String
  changes : List WebhookChange

/-- `WebhookPayload` (webhooks.py lines 170-174). -/
structure WebhookPayload where
  object : String
  entry : List WebhookEntry

/-- `WebhookEvent` (webhooks.py lines 177-183). -/
structure WebhookEvent where
  raw_payload : WebhookPayload
  messages : List IncomingMessage := []
  statuses : List MessageStatus := []
  errors : List Json := []

/-- `if xs: acc.extend(xs)` on an `Optional[List]`: Python truthiness skips
both `None` and the empty list (extending by the empty list is a no-op, so the
value agrees with `acc ++ xs.getD []`). -/
def truthyExtend (acc : List α) (xs : Option (List α)) : List α :=
  match xs with
  | some l => if l.isEmpty then acc else acc ++ l
  | none => acc

/-- The inner `for change in entry.changes` loop of `WebhookEvent.from_payload`
(webhooks.py lines 193-199), threading the three accumulators. -/
def flattenChanges (ms : List IncomingMessage) (ss : List MessageStatus) (es : List Json) :
    List WebhookChange → List IncomingMessage × List MessageStatus × List Json
  | [] => (ms, ss, es)
  | c :: rest =>
    flattenChanges (truthyExtend ms c.value.messages) (truthyExtend ss c.value.statuses)
      (truthyExtend es c.value.errors) rest

/-- The outer `for entry in payload.entry` loop (webhooks.py lines 192-199). -/
def flattenEntries (ms : List IncomingMessage) (ss : List MessageStatus) (es : List Json) :
    List WebhookEntry → List IncomingMessage × List MessageStatus × List Json
  | [] => (ms, ss, es)
  | e :: rest =>
    match flattenChanges ms ss es e.changes with
    | (ms1, ss1, es1) => flattenEntries ms1 ss1 es1 rest

/-- `WebhookEvent.from_payload` (webhooks.py lines 185-206). -/
def WebhookEvent.from_payload (payload : WebhookPayload) : WebhookEvent :=
  match flattenEntries [] [] [] payload.entry with
  | (ms, ss, es) => { raw_payload := payload, messages := ms, statuses := ss, errors := es }

/-! Theorems. -/

/-- Sanity check of the SHA-256 translation against the standard test vector
for `b"hello"`. -/
theorem sha256_hello :
    bytesToHex (sha256 (strBytes "hello")) =
      "2cf24dba5fb0a30e26e83b2ac5b9e29e1b161e5c1fa7425e73043362938b9824" := by
  decide

/-- Sanity check of the transport embedding: a 2xx response returns its parsed
body after one attempt. -/
theorem request_success_returns_body :
    HTTPClient.request 3 (fun _ => .response ⟨200, none, .ok (Json.str "payload"), "e"⟩) =
      ⟨.ok (Json.str "payload"), 1, []⟩ := by
  rfl

/-- Sanity check of the transport embedding: the retry machinery is live —
`httpx.RequestError` on all 3 attempts gives 3 attempts, backoff sleeps of
`2^0` and `2^1` seconds, then `NetworkError` wrapping the last cause. -/
theorem request_network_error_retries :
    HTTPClient.request 3 (fun _ => .requestError "connection refused") =
      ⟨.error (.NetworkError "Network error after 3 retries: connection refused"), 3, [1, 2]⟩ := by
  rfl

/-- C1: the claim says a transport that yields HTTP 500 on every attempt makes
exactly `max_retries` attempts with backoff sleeps and then fails with
`NetworkError`. The code instead classifies 500 under the handler's
`status >= 400` branch, so with `max_retries = 3` it makes exactly one
attempt, sleeps never, and raises a generic `APIError` (message `str(e)` of
the `HTTPStatusError`, vendor envelope ignored): the `status >= 500` retry
branch of the source is unreachable. -/
theorem c1_all_500_single_attempt_apierror :
    HTTPClient.request 3
        (fun _ => .response ⟨500, none, .ok (Json.obj []), "Server error for url"⟩) =
      ⟨.error (.APIError (.str "Server error for url") .null (.num 500) (.obj [])), 1, []⟩ := by
  rfl

/-- The vendor error envelope used in the C2 counterexample run. -/
def envelopeBody400 : Json :=
  Json.obj [("error", Json.obj
    [("message", .str "Invalid parameter"), ("code", .num 100),
     ("error_subcode", .num 33), ("error_data", Json.obj [("details", .str "bad field")])])]

/-- C2: on a 400 response carrying a full vendor error envelope, the claim says
the raised `APIError` is populated from `error.message` / `error.code` /
`error.error_subcode` / `error.error_data`. One attempt and `APIError` hold,
but the envelope-parsed error built by `APIError.from_response` (second
conjunct) is swallowed by the inner `except Exception` of the handler, and the
generic `APIError(message=str(e), status_code=400)` escapes instead (first
conjunct): message is the `HTTPStatusError` rendering, `code` is `None`,
`status_code` is the HTTP status rather than `error_subcode`, `details` is
`{}`. -/
theorem c2_client_error_envelope_swallowed :
    HTTPClient.request 3
        (fun _ => .response ⟨400, none, .ok envelopeBody400, "Client error for url"⟩) =
      ⟨.error (.APIError (.str "Client error for url") .null (.num 400) (.obj [])), 1, []⟩ ∧
    APIError.from_response envelopeBody400 =
      .ok (.APIError (.str "Invalid parameter") (.num 100) (.num 33)
        (Json.obj [("details", .str "bad field")])) := by
  exact ⟨rfl, rfl⟩

/-- C3: the claim says a 401 response raises `AuthenticationError` after one
attempt. One attempt holds, but the `AuthenticationError` raised inside the
`try` matches no `except` clause before the generic `except Exception`, which
wraps it: what escapes is `NetworkError("Unexpected error: <auth message>")`,
not an `AuthenticationError`. -/
theorem c3_auth_error_wrapped_as_network_error :
    HTTPClient.request 3
        (fun _ => .response ⟨401, none,
          .ok (Json.obj [("error", Json.obj [("message", .str "Invalid OAuth access token")])]),
          "Client error 401"⟩) =
      ⟨.error (.NetworkError "Unexpected error: Invalid OAuth access token"), 1, []⟩ := by
  rfl

/-- C4: a 429 response on the first attempt makes the call fail at once with
`RateLimitError` whose `retry_after` is the parsed `Retry-After` header, or 60
when the header is absent; exactly one attempt, no sleeps. -/
theorem c4_rate_limit_no_retry (max_retries : Nat) (transport : Nat → AttemptOutcome)
    (r : Response) (h1 : 1 ≤ max_retries) (h0 : transport 0 = .response r)
    (h429 : r.status_code = 429) :
    HTTPClient.request max_retries transport =
      ⟨.error (.RateLimitError "Rate limit exceeded" (some (r.retry_after.getD 60))), 1, []⟩ := by
  obtain ⟨k, rfl⟩ : ∃ k, max_retries = k + 1 :=
    ⟨max_retries - 1, (Nat.succ_pred_eq_of_pos h1).symm⟩
  simp [HTTPClient.request, HTTPClient.requestLoop, h0, h429]

/-- Closed run of `c4_rate_limit_no_retry`: header present (`Retry-After: 120`)
on the first conjunct, absent (default 60) on the second. -/
theorem c4_rate_limit_no_retry_witness :
    HTTPClient.request 3 (fun _ => .response ⟨429, some 120, .ok (Json.obj []), "e"⟩) =
      ⟨.error (.RateLimitError "Rate limit exceeded" (some 120)), 1, []⟩ ∧
    HTTPClient.request 3 (fun _ => .response ⟨429, none, .ok (Json.obj []), "e"⟩) =
      ⟨.error (.RateLimitError "Rate limit exceeded" (some 60)), 1, []⟩ := by
  exact ⟨c4_rate_limit_no_retry 3 _ ⟨429, some 120, .ok (Json.obj []), "e"⟩ (by decide) rfl rfl,
    c4_rate_limit_no_retry 3 _ ⟨429, none, .ok (Json.obj []), "e"⟩ (by decide) rfl rfl⟩

/-- C5: with a non-empty app secret, `validate_webhook_signature` returns
`ok true` exactly when the header, after stripping an optional `sha256=`
prefix, equals the lowercase hex HMAC-SHA256 of the payload keyed by the
secret; with an empty secret it raises `WebhookError` instead. -/
theorem c5_signature_validation (secret sig : String) (payload : List Nat)
    (h : secret ≠ "") :
    (WhatsAppClient.validate_webhook_signature secret sig payload = .ok true ↔
        WhatsAppClient.stripSha256Prefix sig = hmacSha256Hex (strBytes secret) payload) ∧
      WhatsAppClient.validate_webhook_signature "" sig payload =
        .error (.WebhookError "app_secret is required for webhook signature validation") := by
  refine ⟨?_, rfl⟩
  simp only [WhatsAppClient.validate_webhook_signature, if_neg h, Except.ok.injEq, beq_iff_eq]
  exact eq_comm

set_option maxRecDepth 100000 in
/-- Closed run of `c5_signature_validation` on secret `"key"` and payload
`b"hello"`: the correct digest is accepted with and without the `sha256=`
prefix, and the digest with the first bit of the first nibble flipped
(`9` to `8`) is rejected. -/
theorem c5_signature_validation_witness :
    WhatsAppClient.validate_webhook_signature "key"
        "sha256=9307b3b915efb5171ff14d8cb55fbcc798c6c0ef1456d66ded1a6aa723a58b7b"
        (strBytes "hello") = .ok true ∧
    WhatsAppClient.validate_webhook_signature "key"
        "9307b3b915efb5171ff14d8cb55fbcc798c6c0ef1456d66ded1a6aa723a58b7b"
        (strBytes "hello") = .ok true ∧
    WhatsAppClient.validate_webhook_signature "key"
        "8307b3b915efb5171ff14d8cb55fbcc798c6c0ef1456d66ded1a6aa723a58b7b"
        (strBytes "hello") = .ok false := by
  refine ⟨(c5_signature_validation "key" _ _ (by decide)).1.mpr (by decide),
    (c5_signature_validation "key" _ _ (by decide)).1.mpr (by decide), by rfl⟩

/-- `truthyExtend` is appending the list, with absence as the empty list. -/
theorem truthyExtend_eq (acc : List α) (xs : Option (List α)) :
    truthyExtend acc xs = acc ++ xs.getD [] := by
  cases xs with
  | none => simp [truthyExtend]
  | some l => cases l <;> simp [truthyExtend]

/-- The inner loop appends the per-change flattenings in change order. -/
theorem flattenChanges_eq (ms : List IncomingMessage) (ss : List MessageStatus)
    (es : List Json) (cs : List WebhookChange) :
    flattenChanges ms ss es cs =
      (ms ++ cs.flatMap (fun c => c.value.messages.getD []),
       ss ++ cs.flatMap (fun c => c.value.statuses.getD []),
       es ++ cs.flatMap (fun c => c.value.errors.getD [])) := by
  induction cs generalizing ms ss es with
  | nil => simp [flattenChanges]
  | cons c rest ih => simp [flattenChanges, truthyExtend_eq, ih]

/-- The outer loop appends the per-entry flattenings in entry order. -/
theorem flattenEntries_eq (ms : List IncomingMessage) (ss : List MessageStatus)
    (es : List Json) (entries : List WebhookEntry) :
    flattenEntries ms ss es entries =
      (ms ++ entries.flatMap (fun e => e.changes.flatMap (fun c => c.value.messages.getD [])),
       ss ++ entries.flatMap (fun e => e.changes.flatMap (fun c => c.value.statuses.getD [])),
       es ++ entries.flatMap (fun e => e.changes.flatMap (fun c => c.value.errors.getD []))) := by
  induction entries generalizing ms ss es with
  | nil => simp [flattenEntries]
  | cons e rest ih => simp [flattenEntries, flattenChanges_eq, ih]

/-- C6: `WebhookEvent.from_payload` produces the three flattened sequences in
traversal order — entry order, then change order within an entry, then item
order within each list — treating an absent list as empty and never failing. -/
theorem c6_from_payload_flattens (payload : WebhookPayload) :
    (WebhookEvent.from_payload payload).messages =
        payload.entry.flatMap
          (fun e => e.changes.flatMap (fun c => c.value.messages.getD [])) ∧
      (WebhookEvent.from_payload payload).statuses =
        payload.entry.flatMap
          (fun e => e.changes.flatMap (fun c => c.value.statuses.getD [])) ∧
      (WebhookEvent.from_payload payload).errors =
        payload.entry.flatMap
          (fun e => e.changes.flatMap (fun c => c.value.errors.getD [])) := by
  simp [WebhookEvent.from_payload, flattenEntries_eq]

/-- C7: `verify_webhook_token` returns `true` exactly when a verify token is
configured (non-empty) and the supplied token equals it; an unconfigured
token yields `false` rather than an error. -/
theorem c7_verify_webhook_token_iff (cfg tok : String) :
    WhatsAppClient.verify_webhook_token cfg tok = true ↔ cfg ≠ "" ∧ tok = cfg := by
  by_cases h : cfg = "" <;> simp [WhatsAppClient.verify_webhook_token, h]

/-- C8: `_validate_phone_number` returns the digit subsequence of its input
when 7–15 digits remain, and raises `ValidationError` otherwise. -/
theorem c8_phone_validation (phone : String) :
    (7 ≤ (phone.data.filter Char.isDigit).length ∧
        (phone.data.filter Char.isDigit).length ≤ 15 →
      WhatsAppClient.validate_phone_number phone =
        .ok (String.mk (phone.data.filter Char.isDigit))) ∧
    ((phone.data.filter Char.isDigit).length < 7 ∨
        15 < (phone.data.filter Char.isDigit).length →
      WhatsAppClient.validate_phone_number phone =
        .error (.ValidationError ("Invalid phone number: " ++ phone))) := by
  refine ⟨fun h => ?_, fun h => ?_⟩
  · simp only [WhatsAppClient.validate_phone_number]
    rw [if_neg (by omega)]
  · simp only [WhatsAppClient.validate_phone_number]
    rw [if_pos h]

/-- Closed run of `c8_phone_validation`: `"+1 (234) 567-8900"` normalizes to
its 11 digits, the 3-digit `"123"` is rejected, a 16-digit string is
rejected. -/
theorem c8_phone_validation_witness :
    WhatsAppClient.validate_phone_number "+1 (234) 567-8900" = .ok "12345678900" ∧
    WhatsAppClient.validate_phone_number "123" =
      .error (.ValidationError "Invalid phone number: 123") ∧
    WhatsAppClient.validate_phone_number "1234567890123456" =
      .error (.ValidationError "Invalid phone number: 1234567890123456") := by
  exact ⟨(c8_phone_validation _).1 (by decide), (c8_phone_validation _).2 (by decide),
    (c8_phone_validation _).2 (by decide)⟩

/-- C9: whenever the retry loop completes its range without returning a body
and without raising, the fallback raises a generic `NetworkError` (first
conjunct), with message `"Request failed for unknown reason"` when no prior
exception was recorded (second conjunct); in particular with `max_retries = 0`
the loop body never runs and that error is raised after zero attempts (third
conjunct). -/
theorem c9_loop_exhaustion_generic_network_error (transport : Nat → AttemptOutcome)
    (max_retries attempt : Nat) (last_exception : Option String) (sleeps : List Nat) :
    (∃ msg, HTTPClient.requestLoop transport max_retries attempt 0 last_exception sleeps =
        ⟨.error (.NetworkError msg), attempt, sleeps⟩) ∧
    (last_exception = none →
      HTTPClient.requestLoop transport max_retries attempt 0 last_exception sleeps =
        ⟨.error (.NetworkError "Request failed for unknown reason"), attempt, sleeps⟩) ∧
    HTTPClient.request 0 transport =
      ⟨.error (.NetworkError "Request failed for unknown reason"), 0, []⟩ := by
  refine ⟨?_, fun h => by subst h; rfl, rfl⟩
  cases last_exception with
  | none => exact ⟨"Request failed for unknown reason", rfl⟩
  | some m => exact ⟨_, rfl⟩

/-- Closed run of `c9_loop_exhaustion_generic_network_error`: an exhausted loop
with no recorded exception fails with the unknown-reason `NetworkError`. -/
theorem c9_loop_exhaustion_generic_network_error_witness :
    HTTPClient.requestLoop (fun _ => .requestError "boom") 5 5 0 none [1, 2] =
      ⟨.error (.NetworkError "Request failed for unknown reason"), 5, [1, 2]⟩ :=
  (c9_loop_exhaustion_generic_network_error (fun _ => .requestError "boom") 5 5 none
    [1, 2]).2.1 rfl

/-- C10: a 2xx response whose body fails to parse as JSON raises, and that
exception matches neither `httpx` clause nor `except RateLimitError`; the
generic handler wraps it as `NetworkError` prefixed `Unexpected error: `,
after exactly one attempt with no retry — the parse error itself never
surfaces and no value is returned. -/
theorem c10_unexpected_error_wrapped (max_retries : Nat) (transport : Nat → AttemptOutcome)
    (r : Response) (msg : String) (h1 : 1 ≤ max_retries) (h0 : transport 0 = .response r)
    (hlo : 200 ≤ r.status_code) (hhi : r.status_code < 300) (hbody : r.body = .error msg) :
    HTTPClient.request max_retries transport =
      ⟨.error (.NetworkError ("Unexpected error: " ++ msg)), 1, []⟩ := by
  obtain ⟨k, rfl⟩ : ∃ k, max_retries = k + 1 :=
    ⟨max_retries - 1, (Nat.succ_pred_eq_of_pos h1).symm⟩
  simp only [HTTPClient.request, HTTPClient.requestLoop, h0]
  rw [if_neg (by omega), if_neg (by omega), if_neg (by omega), hbody]

/-- Closed run of `c10_unexpected_error_wrapped`: a 200 response with an
invalid JSON body. -/
theorem c10_unexpected_error_wrapped_witness :
    HTTPClient.request 3
        (fun _ => .response ⟨200, none, .error "Expecting value: line 1 column 1 (char 0)", "e"⟩) =
      ⟨.error (.NetworkError "Unexpected error: Expecting value: line 1 column 1 (char 0)"),
        1, []⟩ := by
  exact c10_unexpected_error_wrapped 3 _ _ _ (by decide) rfl (by decide) (by decide) rfl

end WhatsAppSDK
